import Mathlib

/-!
Verification of the crude-oil recommendation engine.

The development shallowly embeds the decision logic of the repository:

* `codigo.py`, `generar_recomendacion_final`: normalisation of the three
  input signals, the fixed-weight blended score, and the descending
  `if/elif` mapping of the score to a trading action and a risk tag;
* `demo_cosine_similarity.py` (duplicated inside
  `codigo.py`, `demostrar_cosine_similarity`): the cosine-similarity
  computation over numpy vectors and the name-driven recommendation
  printed for each historical scenario;
* the spec-level `SimilarityRanker` (not present in the Python sources),
  modelled from the spec where indicated.

Python floats are modelled as exact rationals (`ℚ`) for the purely
arithmetic decision logic, and as reals (`ℝ`) where square roots occur;
numpy's behaviour on shape mismatch (a raised `ValueError`) and on a
`0.0 / 0.0` division (a `nan` result) is modelled explicitly.
-/

/-- Technical signal from the trend classification
(`codigo.py` lines 611-619): `precio > sma20 > sma50` is the ALCISTA
(uptrend) branch giving 0.7, `precio < sma20 < sma50` the BAJISTA
(downtrend) branch giving 0.3, anything else LATERAL giving 0.5. -/
def tecnico_norm (precio sma20 sma50 : ℚ) : ℚ :=
  if precio > sma20 ∧ sma20 > sma50 then 0.7
  else if precio < sma20 ∧ sma20 < sma50 then 0.3
  else 0.5

/-- Prediction signal from the forecast percentage change
(`codigo.py` lines 628-629): `(cambio + 10) / 20` clamped into `[0, 1]`
by `max(0, min(1, ·))`. -/
def pred_norm (cambio : ℚ) : ℚ :=
  max 0 (min 1 ((cambio + 10) / 20))

/-- Sentiment signal from the compound sentiment score
(`codigo.py` line 632): `(sentimiento + 1) / 2`, with no clamping. -/
def sent_norm (sentimiento : ℚ) : ℚ :=
  (sentimiento + 1) / 2

/-- Weight of the prediction signal (`codigo.py` line 641). -/
def PESO_PREDICCION : ℚ := 0.40

/-- Weight of the technical signal (`codigo.py` line 642). -/
def PESO_TECNICO : ℚ := 0.30

/-- Weight of the sentiment signal (`codigo.py` line 643). -/
def PESO_SENTIMIENTO : ℚ := 0.30

/-- Blended decision score (`codigo.py` lines 645-647). -/
def score_final (pred tec sent : ℚ) : ℚ :=
  PESO_PREDICCION * pred + PESO_TECNICO * tec + PESO_SENTIMIENTO * sent

/-- Mapping from the blended score to the pair (action, risk tag),
the descending `if/elif` chain of `codigo.py` lines 652-666. -/
def decision_final (score : ℚ) : String × String :=
  if score ≥ 0.65 then ("COMPRAR FUERTE", "MEDIO-ALTO")
  else if score ≥ 0.55 then ("COMPRAR", "MEDIO")
  else if score > 0.45 then ("MANTENER", "BAJO")
  else if score > 0.35 then ("VENDER", "MEDIO")
  else ("VENDER FUERTE", "ALTO")

/-- C1: the descending `if/elif` chain realises exactly the claimed bands:
`score ≥ 0.65` gives COMPRAR FUERTE (STRONG_BUY) with risk MEDIO-ALTO,
`0.55 ≤ score < 0.65` gives COMPRAR (BUY) with MEDIO,
`0.45 < score < 0.55` gives MANTENER (HOLD) with BAJO,
`0.35 < score ≤ 0.45` gives VENDER (SELL) with MEDIO, and
`score ≤ 0.35` gives VENDER FUERTE (STRONG_SELL) with ALTO; the five
characterisations are exclusive and exhaustive, and in particular a score
of exactly 0.55 yields COMPRAR. -/
theorem decision_final_bands (s : ℚ) :
    (decision_final s = ("COMPRAR FUERTE", "MEDIO-ALTO") ↔ 0.65 ≤ s) ∧
    (decision_final s = ("COMPRAR", "MEDIO") ↔ 0.55 ≤ s ∧ s < 0.65) ∧
    (decision_final s = ("MANTENER", "BAJO") ↔ 0.45 < s ∧ s < 0.55) ∧
    (decision_final s = ("VENDER", "MEDIO") ↔ 0.35 < s ∧ s ≤ 0.45) ∧
    (decision_final s = ("VENDER FUERTE", "ALTO") ↔ s ≤ 0.35) ∧
    decision_final (0.55 : ℚ) = ("COMPRAR", "MEDIO") := by
  unfold decision_final
  refine ⟨?_, ?_, ?_, ?_, ?_, by norm_num⟩ <;>
    split_ifs with h1 h2 h3 h4 <;>
    constructor <;>
    intro hh <;>
    first
      | rfl
      | (exact absurd hh (by decide))
      | linarith
      | (exact ⟨by linarith, by linarith⟩)

/-- C2: the blended score is the fixed-weight combination
`0.40 * pred + 0.30 * tec + 0.30 * sent`; at the inputs 0.75, 0.7, 0.85
it evaluates to 0.765 and the resulting decision is COMPRAR FUERTE
(STRONG_BUY) with risk MEDIO-ALTO. -/
theorem score_final_formula :
    (∀ pred tec sent : ℚ,
      score_final pred tec sent = 0.40 * pred + 0.30 * tec + 0.30 * sent) ∧
    score_final 0.75 0.7 0.85 = 0.765 ∧
    decision_final (score_final 0.75 0.7 0.85) =
      ("COMPRAR FUERTE", "MEDIO-ALTO") := by
  refine ⟨fun pred tec sent => rfl, by norm_num [score_final,
    PESO_PREDICCION, PESO_TECNICO, PESO_SENTIMIENTO], ?_⟩
  have h : score_final 0.75 0.7 0.85 = 0.765 := by
    norm_num [score_final, PESO_PREDICCION, PESO_TECNICO, PESO_SENTIMIENTO]
  rw [h]
  norm_num [decision_final]

/-- C8: the caller-side signal normalisation behaves as claimed:
the prediction signal is `(c + 10) / 20` clamped into `[0, 1]`
(0 for `c ≤ -10`, 1 for `c ≥ 10`, the affine map in between, and always
inside `[0, 1]`); the sentiment signal is `(s + 1) / 2` with no clamping
(it leaves `[0, 1]` for out-of-range inputs, e.g. value -1 at s = -3);
the technical signal is exactly 0.7 on an uptrend, 0.3 on a downtrend
and 0.5 otherwise. -/
theorem signal_normalisation :
    (∀ c : ℚ, c ≤ -10 → pred_norm c = 0) ∧
    (∀ c : ℚ, 10 ≤ c → pred_norm c = 1) ∧
    (∀ c : ℚ, -10 ≤ c → c ≤ 10 → pred_norm c = (c + 10) / 20) ∧
    (∀ c : ℚ, 0 ≤ pred_norm c ∧ pred_norm c ≤ 1) ∧
    (∀ s : ℚ, sent_norm s = (s + 1) / 2) ∧
    sent_norm (-3) = -1 ∧
    (∀ p a b : ℚ, p > a → a > b → tecnico_norm p a b = 0.7) ∧
    (∀ p a b : ℚ, p < a → a < b → tecnico_norm p a b = 0.3) ∧
    (∀ p a b : ℚ, ¬(p > a ∧ a > b) → ¬(p < a ∧ a < b) →
      tecnico_norm p a b = 0.5) := by
  refine ⟨?_, ?_, ?_, ?_, fun s => rfl, by norm_num [sent_norm], ?_, ?_, ?_⟩
  · intro c hc
    have h1 : (c + 10) / 20 ≤ 0 := by linarith
    simp only [pred_norm]
    rw [max_eq_left]
    exact le_trans (min_le_right _ _) h1
  · intro c hc
    have h1 : (1 : ℚ) ≤ (c + 10) / 20 := by linarith
    simp only [pred_norm]
    rw [min_eq_left h1, max_eq_right]
    norm_num
  · intro c hc1 hc2
    have h1 : (c + 10) / 20 ≤ 1 := by linarith
    have h2 : (0 : ℚ) ≤ (c + 10) / 20 := by linarith
    simp only [pred_norm]
    rw [min_eq_right h1, max_eq_right h2]
  · intro c
    constructor
    · exact le_max_left 0 _
    · simp only [pred_norm]
      rw [max_le_iff]
      exact ⟨by norm_num, min_le_left _ _⟩
  · intro p a b hpa hab
    simp only [tecnico_norm, if_pos (And.intro hpa hab)]
  · intro p a b hpa hab
    have h1 : ¬(p > a ∧ a > b) := by
      rintro ⟨h2, h3⟩; linarith
    simp only [tecnico_norm, if_neg h1, if_pos (And.intro hpa hab)]
  · intro p a b h1 h2
    simp only [tecnico_norm, if_neg h1, if_neg h2]

/-- Concrete witness for `signal_normalisation`: each clause instantiated
at a specific input. -/
theorem signal_normalisation_witness :
    pred_norm (-12) = 0 ∧ pred_norm 12 = 1 ∧ pred_norm 2 = (2 + 10) / 20 ∧
    (0 ≤ pred_norm 3 ∧ pred_norm 3 ≤ 1) ∧
    sent_norm 0.5 = (0.5 + 1) / 2 ∧
    tecnico_norm 3 2 1 = 0.7 ∧ tecnico_norm 1 2 3 = 0.3 ∧
    tecnico_norm 2 2 2 = 0.5 := by
  obtain ⟨h1, h2, h3, h4, h5, _, h7, h8, h9⟩ := signal_normalisation
  exact ⟨h1 (-12) (by norm_num), h2 12 (by norm_num),
    h3 2 (by norm_num) (by norm_num), h4 3, h5 0.5,
    h7 3 2 1 (by norm_num) (by norm_num),
    h8 1 2 3 (by norm_num) (by norm_num),
    h9 2 2 2 (by norm_num) (by norm_num)⟩

/-- C9: when all three input signals lie in `[0, 1]` the blended score
lies in `[0, 1]`: the weights 0.40, 0.30, 0.30 are non-negative and sum
to 1. -/
theorem score_final_unit_interval (pred tec sent : ℚ)
    (hp0 : 0 ≤ pred) (hp1 : pred ≤ 1) (ht0 : 0 ≤ tec) (ht1 : tec ≤ 1)
    (hs0 : 0 ≤ sent) (hs1 : sent ≤ 1) :
    0 ≤ score_final pred tec sent ∧ score_final pred tec sent ≤ 1 := by
  unfold score_final PESO_PREDICCION PESO_TECNICO PESO_SENTIMIENTO
  constructor <;> nlinarith

/-- Concrete witness for `score_final_unit_interval` at the inputs of the
end-to-end scenario. -/
theorem score_final_unit_interval_witness :
    0 ≤ score_final 0.75 0.7 0.85 ∧ score_final 0.75 0.7 0.85 ≤ 1 :=
  score_final_unit_interval 0.75 0.7 0.85 (by norm_num) (by norm_num)
    (by norm_num) (by norm_num) (by norm_num) (by norm_num)

/-- Dot product of two numeric vectors on matching entries, the value
`np.dot` computes on equal-length 1-D arrays
(`demo_cosine_similarity.py` line 44). -/
def dot_product : List ℚ → List ℚ → ℚ
  | x :: xs, y :: ys => x * y + dot_product xs ys
  | [], _ => 0
  | _ :: _, [] => 0

/-- Sum of squares of the entries of a vector. -/
def sumSq (a : List ℚ) : ℚ := dot_product a a

/-- Euclidean norm, `np.linalg.norm`
(`demo_cosine_similarity.py` lines 45-46). -/
noncomputable def linalg_norm (a : List ℚ) : ℝ :=
  Real.sqrt (sumSq a)

/-- Result of a numpy floating-point division of finite operands:
a finite value, `nan` (from `0.0 / 0.0`), or a signed infinity. -/
inductive NpFloat where
  | num (x : ℝ)
  | nan
  | inf
  | neginf

/-- Failure raised by numpy before any numeric result is produced:
`np.dot` raises `ValueError` when the two 1-D shapes differ, which is
the dimension-mismatch failure of the similarity computation. -/
inductive NpError where
  | dimensionMismatch
deriving DecidableEq

/-- Division of two finite reals with numpy's floating-point semantics:
`0.0 / 0.0` is `nan`, `x / 0.0` is a signed infinity for `x ≠ 0`,
otherwise the exact quotient. -/
noncomputable def fdiv (x y : ℝ) : NpFloat :=
  if y = 0 then
    if x = 0 then NpFloat.nan
    else if 0 < x then NpFloat.inf
    else NpFloat.neginf
  else NpFloat.num (x / y)

/-- Cosine similarity of `demo_cosine_similarity.py` lines 44-47
(duplicated at `codigo.py` lines 1031-1034): `np.dot(a, b)` — which
raises `ValueError` when the lengths differ — divided by the product of
the two Euclidean norms, with numpy's division semantics. -/
noncomputable def cosine_sim (a b : List ℚ) : Except NpError NpFloat :=
  if a.length = b.length then
    Except.ok (fdiv (dot_product a b) (linalg_norm a * linalg_norm b))
  else Except.error NpError.dimensionMismatch

theorem sumSq_nonneg (a : List ℚ) : 0 ≤ sumSq a := by
  induction a with
  | nil => simp [sumSq, dot_product]
  | cons x xs ih =>
    simp only [sumSq, dot_product] at ih ⊢
    nlinarith

theorem dot_product_map_mul (k : ℚ) :
    ∀ a b : List ℚ,
      dot_product a (b.map fun y => k * y) = k * dot_product a b
  | [], _ => by simp [dot_product]
  | _ :: _, [] => by simp [dot_product]
  | x :: xs, y :: ys => by
    simp only [List.map_cons, dot_product, dot_product_map_mul k xs ys]
    ring

theorem dot_product_map_mul_left (k : ℚ) :
    ∀ a b : List ℚ,
      dot_product (a.map fun x => k * x) b = k * dot_product a b
  | [], _ => by simp [dot_product]
  | _ :: _, [] => by simp [dot_product]
  | x :: xs, y :: ys => by
    simp only [List.map_cons, dot_product, dot_product_map_mul_left k xs ys]
    ring

theorem sumSq_map_mul (k : ℚ) (a : List ℚ) :
    sumSq (a.map fun x => k * x) = k ^ 2 * sumSq a := by
  simp only [sumSq, dot_product_map_mul_left, dot_product_map_mul]
  ring

/-- C6: whenever the two input vectors have different lengths, the
cosine-similarity computation fails (numpy's `np.dot` raises
`ValueError`, the dimension-mismatch failure) rather than computing any
result. -/
theorem cosine_sim_dimension_mismatch (a b : List ℚ)
    (h : a.length ≠ b.length) :
    cosine_sim a b = Except.error NpError.dimensionMismatch := by
  simp [cosine_sim, h]

/-- Concrete witness for `cosine_sim_dimension_mismatch` at the vectors
`[1, 2, 3]` and `[1, 2]` named by the spec. -/
theorem cosine_sim_dimension_mismatch_witness :
    cosine_sim [1, 2, 3] [1, 2] = Except.error NpError.dimensionMismatch :=
  cosine_sim_dimension_mismatch [1, 2, 3] [1, 2] (by decide)

/-- C5 (evaluation at the failing input): on a zero-norm first vector the
code does not fail; it evaluates `0.0 / 0.0` and returns `nan` as its
value. -/
theorem cosine_sim_zero_vector_nan :
    cosine_sim [0, 0, 0] [1, 2, 3] = Except.ok NpFloat.nan := by
  have hd : dot_product ([0, 0, 0] : List ℚ) [1, 2, 3] = 0 := by
    norm_num [dot_product]
  have hs : sumSq ([0, 0, 0] : List ℚ) = 0 := by
    norm_num [sumSq, dot_product]
  simp [cosine_sim, fdiv, linalg_norm, hd, hs]

theorem fdiv_self (x : ℝ) (hx : x ≠ 0) : fdiv x x = NpFloat.num 1 := by
  unfold fdiv
  rw [if_neg hx, div_self hx]

/-- C7: for every vector of non-zero norm and every positive rational
scale factor `k`, the cosine similarity of `a` with the entrywise scaled
copy `k * a` is exactly 1, and so is the self-similarity
`cosine_sim a a`; in the exact-real model the tolerance is not needed. -/
theorem cosine_sim_scale_invariance (a : List ℚ) (k : ℚ)
    (ha : sumSq a ≠ 0) (hk : 0 < k) :
    cosine_sim a (a.map fun x => k * x) = Except.ok (NpFloat.num 1) ∧
    cosine_sim a a = Except.ok (NpFloat.num 1) := by
  have hsa : (0 : ℚ) < sumSq a := lt_of_le_of_ne (sumSq_nonneg a) (Ne.symm ha)
  have hsaR : (0 : ℝ) < (sumSq a : ℝ) := by exact_mod_cast hsa
  have hkR : (0 : ℝ) < (k : ℝ) := by exact_mod_cast hk
  have hself : cosine_sim a a = Except.ok (NpFloat.num 1) := by
    unfold cosine_sim
    rw [if_pos rfl]
    have hden : linalg_norm a * linalg_norm a = ((sumSq a : ℚ) : ℝ) := by
      unfold linalg_norm
      exact Real.mul_self_sqrt hsaR.le
    have hnum : ((dot_product a a : ℚ) : ℝ) = ((sumSq a : ℚ) : ℝ) := rfl
    rw [hnum, hden, fdiv_self _ (ne_of_gt hsaR)]
  refine ⟨?_, hself⟩
  unfold cosine_sim
  rw [if_pos (List.length_map a _).symm]
  have hdot : dot_product a (a.map fun x => k * x) = k * sumSq a := by
    rw [dot_product_map_mul]; rfl
  have hnormm : linalg_norm (a.map fun x => k * x)
      = (k : ℝ) * Real.sqrt (sumSq a) := by
    unfold linalg_norm
    rw [sumSq_map_mul]
    push_cast
    rw [Real.sqrt_mul (by positivity) ((sumSq a : ℚ) : ℝ),
      Real.sqrt_sq hkR.le]
  have hZ : linalg_norm a * ((k : ℝ) * Real.sqrt (sumSq a))
      = ((k * sumSq a : ℚ) : ℝ) := by
    unfold linalg_norm
    push_cast
    rw [← mul_assoc, mul_comm (Real.sqrt ((sumSq a : ℚ) : ℝ)) ((k : ℝ)),
      mul_assoc, Real.mul_self_sqrt hsaR.le]
  rw [hdot, hnormm, hZ, fdiv_self]
  push_cast
  exact ne_of_gt (mul_pos hkR hsaR)

/-- Concrete witness for `cosine_sim_scale_invariance` at the vector
`[1, 2]` and scale factor 2. -/
theorem cosine_sim_scale_invariance_witness :
    cosine_sim [1, 2] (([1, 2] : List ℚ).map fun x => (2 : ℚ) * x) =
      Except.ok (NpFloat.num 1) ∧
    cosine_sim [1, 2] [1, 2] = Except.ok (NpFloat.num 1) :=
  cosine_sim_scale_invariance [1, 2] 2
    (by norm_num [sumSq, dot_product]) (by norm_num)

/-- Modelled from the spec: a historical market situation of the
`SituationLibrary` — an identifier, a feature vector, and the bound
outcome action identifier. The Python sources under version control
contain no such record type; the spec's data model (§3) defines it. -/
structure HistoricalSituation where
  sid : String
  vector : List ℚ
  outcome : String

/-- Modelled from the spec: a `SimilarityResult` pairing a situation's
identity with its computed similarity score. -/
structure SimilarityResult where
  sid : String
  score : ℝ

/-- Modelled from the spec: the cosine-similarity score the
`SimilarityRanker` attaches to a library situation (the §4.1 value for
compatible vectors of non-zero norm). -/
noncomputable def simScore (q v : List ℚ) : ℝ :=
  (dot_product q v : ℝ) / (linalg_norm q * linalg_norm v)

/-- Modelled from the spec: stable descending insertion of one result
into an already ranked list — a result moves ahead of another only when
its score is strictly larger, so equal scores keep their existing
relative order (first-inserted wins ties). -/
noncomputable def insertResult (x : SimilarityResult) :
    List SimilarityResult → List SimilarityResult
  | [] => [x]
  | y :: ys =>
    if x.score < y.score then y :: insertResult x ys else x :: y :: ys

/-- Modelled from the spec: stable sort of similarity results by
descending score. -/
noncomputable def sortResults : List SimilarityResult → List SimilarityResult
  | [] => []
  | x :: xs => insertResult x (sortResults xs)

/-- Modelled from the spec: `SimilarityRanker.rank` — score every library
situation against the query and order the results by descending
similarity with the stable insertion-order tie-break. -/
noncomputable def rank (query : List ℚ)
    (library : List HistoricalSituation) : List SimilarityResult :=
  sortResults (library.map fun s => ⟨s.sid, simScore query s.vector⟩)

/-- The results of a given score value, in order. -/
noncomputable def scoreFilter (c : ℝ) (l : List SimilarityResult) :
    List SimilarityResult :=
  l.filter fun r => decide (r.score = c)

theorem insertResult_perm (x : SimilarityResult) :
    ∀ l : List SimilarityResult, (insertResult x l).Perm (x :: l)
  | [] => List.Perm.refl _
  | y :: ys => by
    unfold insertResult
    split
    · exact ((insertResult_perm x ys).cons y).trans (List.Perm.swap x y ys)
    · exact List.Perm.refl _

theorem sortResults_perm :
    ∀ l : List SimilarityResult, (sortResults l).Perm l
  | [] => List.Perm.refl _
  | x :: xs =>
    (insertResult_perm x (sortResults xs)).trans ((sortResults_perm xs).cons x)

theorem sorted_insertResult (x : SimilarityResult) :
    ∀ l : List SimilarityResult,
      List.Sorted (fun u v => v.score ≤ u.score) l →
      List.Sorted (fun u v => v.score ≤ u.score) (insertResult x l)
  | [], _ => List.sorted_singleton x
  | y :: ys, h => by
    rw [List.sorted_cons] at h
    obtain ⟨hy, hys⟩ := h
    unfold insertResult
    split
    case isTrue hlt =>
      rw [List.sorted_cons]
      refine ⟨?_, sorted_insertResult x ys hys⟩
      intro b hb
      rcases List.mem_cons.mp ((insertResult_perm x ys).mem_iff.mp hb) with
        rfl | hbys
      · exact hlt.le
      · exact hy b hbys
    case isFalse hge =>
      rw [List.sorted_cons]
      refine ⟨?_, List.sorted_cons.mpr ⟨hy, hys⟩⟩
      intro b hb
      rcases List.mem_cons.mp hb with rfl | hbys
      · exact not_lt.mp hge
      · exact le_trans (hy b hbys) (not_lt.mp hge)

theorem sorted_sortResults :
    ∀ l : List SimilarityResult,
      List.Sorted (fun u v => v.score ≤ u.score) (sortResults l)
  | [] => List.sorted_nil
  | x :: xs => sorted_insertResult x (sortResults xs) (sorted_sortResults xs)

theorem scoreFilter_cons_eq (c : ℝ) (x : SimilarityResult)
    (hx : x.score = c) (l : List SimilarityResult) :
    scoreFilter c (x :: l) = x :: scoreFilter c l := by
  simp only [scoreFilter, List.filter_cons, decide_eq_true_eq]
  rw [if_pos hx]

theorem scoreFilter_cons_ne (c : ℝ) (x : SimilarityResult)
    (hx : ¬(x.score = c)) (l : List SimilarityResult) :
    scoreFilter c (x :: l) = scoreFilter c l := by
  simp only [scoreFilter, List.filter_cons, decide_eq_true_eq]
  rw [if_neg hx]

theorem scoreFilter_insertResult_eq (c : ℝ) (x : SimilarityResult)
    (hx : x.score = c) :
    ∀ l : List SimilarityResult,
      scoreFilter c (insertResult x l) = x :: scoreFilter c l
  | [] => by
    show scoreFilter c [x] = x :: scoreFilter c []
    rw [scoreFilter_cons_eq c x hx]
  | y :: ys => by
    unfold insertResult
    split
    case isTrue hlt =>
      have hy : ¬(y.score = c) := by
        intro hyc
        rw [hyc, ← hx] at hlt
        exact lt_irrefl _ hlt
      rw [scoreFilter_cons_ne c y hy, scoreFilter_cons_ne c y hy]
      exact scoreFilter_insertResult_eq c x hx ys
    case isFalse hge =>
      rw [scoreFilter_cons_eq c x hx]

theorem scoreFilter_insertResult_ne (c : ℝ) (x : SimilarityResult)
    (hx : ¬(x.score = c)) :
    ∀ l : List SimilarityResult,
      scoreFilter c (insertResult x l) = scoreFilter c l
  | [] => by
    show scoreFilter c [x] = scoreFilter c []
    rw [scoreFilter_cons_ne c x hx]
  | y :: ys => by
    unfold insertResult
    split
    case isTrue hlt =>
      by_cases hy : y.score = c
      · rw [scoreFilter_cons_eq c y hy, scoreFilter_cons_eq c y hy,
          scoreFilter_insertResult_ne c x hx ys]
      · rw [scoreFilter_cons_ne c y hy, scoreFilter_cons_ne c y hy,
          scoreFilter_insertResult_ne c x hx ys]
    case isFalse hge =>
      rw [scoreFilter_cons_ne c x hx]

theorem scoreFilter_sortResults (c : ℝ) :
    ∀ l : List SimilarityResult,
      scoreFilter c (sortResults l) = scoreFilter c l
  | [] => rfl
  | x :: xs => by
    unfold sortResults
    by_cases hx : x.score = c
    · rw [scoreFilter_insertResult_eq c x hx, scoreFilter_sortResults c xs,
        scoreFilter_cons_eq c x hx]
    · rw [scoreFilter_insertResult_ne c x hx, scoreFilter_sortResults c xs,
        scoreFilter_cons_ne c x hx]

/-- C4: for every query and non-empty library, `rank` returns exactly
one `SimilarityResult` per library situation (a permutation of the
scored library, so in particular of the same length), sorted by
non-increasing similarity score, and for every score value the
equal-scored results appear exactly in the library's insertion order;
`rank` is a pure function, so repeated calls return the same output. -/
theorem rank_sorted_stable (query : List ℚ)
    (library : List HistoricalSituation) (_hne : library ≠ []) :
    (rank query library).length = library.length ∧
    (rank query library).Perm
      (library.map fun s => ⟨s.sid, simScore query s.vector⟩) ∧
    List.Sorted (fun u v => v.score ≤ u.score) (rank query library) ∧
    (∀ c : ℝ, scoreFilter c (rank query library)
      = scoreFilter c
          (library.map fun s => ⟨s.sid, simScore query s.vector⟩)) := by
  have hperm :=
    sortResults_perm (library.map fun s => ⟨s.sid, simScore query s.vector⟩)
  exact ⟨hperm.length_eq.trans (List.length_map _ _), hperm,
    sorted_sortResults _, fun c => scoreFilter_sortResults c _⟩

/-- Concrete witness for `rank_sorted_stable`: a two-situation library. -/
theorem rank_sorted_stable_witness :
    (rank [1, 0] [⟨"A", [1, 0], "COMPRAR"⟩, ⟨"B", [0, 1], "VENDER"⟩]).length
      = ([⟨"A", [1, 0], "COMPRAR"⟩,
          ⟨"B", [0, 1], "VENDER"⟩] : List HistoricalSituation).length ∧
    List.Sorted (fun u v => v.score ≤ u.score)
      (rank [1, 0] [⟨"A", [1, 0], "COMPRAR"⟩, ⟨"B", [0, 1], "VENDER"⟩]) := by
  have h := rank_sorted_stable [1, 0]
    [⟨"A", [1, 0], "COMPRAR"⟩, ⟨"B", [0, 1], "VENDER"⟩] (by simp)
  exact ⟨h.1, h.2.2.1⟩

/-- Prefix test on character lists: `pat` begins `s`. -/
def leadsWith : List Char → List Char → Bool
  | [], _ => true
  | _ :: _, [] => false
  | p :: ps, c :: cs => p == c && leadsWith ps cs

/-- Substring occurrence test on character lists: `pat` occurs in `s`
starting at some position. -/
def containsChars (pat : List Char) : List Char → Bool
  | [] => leadsWith pat []
  | c :: cs => leadsWith pat (c :: cs) || containsChars pat cs

/-- Python's substring operator `pat in s` on strings. -/
def strContains (s pat : String) : Bool :=
  containsChars pat.data s.data

/-- Recommendation printed for a historical scenario
(`demo_cosine_similarity.py` lines 50-55, duplicated at `codigo.py`
lines 1037-1042): determined from the scenario's name alone by
substring tests for SIMILAR, DIFERENTE and OPUESTO. -/
def recomendacion (nombre : String) : String :=
  if strContains nombre "SIMILAR" then "✅ COMPRAR"
  else if strContains nombre "DIFERENTE" || strContains nombre "OPUESTO" then
    "❌ VENDER"
  else "➡️ MANTENER"

/-- The per-scenario recommendations of the demonstration loop
(`demo_cosine_similarity.py` lines 33-57): one per (name, vector)
library entry; the vectors feed only the printed distance and
similarity columns, never the recommendation. -/
def demoRecomendaciones (sits : List (String × List ℚ)) : List String :=
  sits.map fun e => recomendacion e.1

/-- Sanity check: on the four seed scenario names the loop prints
COMPRAR, COMPRAR, VENDER, VENDER. -/
theorem demoRecomendaciones_seed :
    demoRecomendaciones
      [("Escenario A (MUY SIMILAR)", [0.85, 0.55, 0.75, 0.95]),
       ("Escenario B (SIMILAR)", [0.75, 0.65, 0.65, 0.90]),
       ("Escenario C (DIFERENTE)", [0.30, 0.20, 0.15, 0.10]),
       ("Escenario D (OPUESTO)", [0.20, 0.40, 0.30, 0.00])]
    = ["✅ COMPRAR", "✅ COMPRAR", "❌ VENDER", "❌ VENDER"] := by
  decide

/-- C10: the recommendation printed for each scenario of the
demonstration loop is a function of the scenario names alone — for any
two libraries with the same names, whatever their vectors (and hence
whatever every computed distance or similarity), the printed
recommendations coincide. -/
theorem recomendacion_depends_only_on_names
    (sits1 sits2 : List (String × List ℚ))
    (h : sits1.map Prod.fst = sits2.map Prod.fst) :
    demoRecomendaciones sits1 = demoRecomendaciones sits2 := by
  unfold demoRecomendaciones
  rw [show (fun e : String × List ℚ => recomendacion e.1)
      = recomendacion ∘ Prod.fst from rfl,
    ← List.map_map, ← List.map_map, h]

/-- Concrete witness for `recomendacion_depends_only_on_names`: the seed
names with every vector component changed. -/
theorem recomendacion_depends_only_on_names_witness :
    demoRecomendaciones
      [("Escenario A (MUY SIMILAR)", [0.85, 0.55, 0.75, 0.95]),
       ("Escenario C (DIFERENTE)", [0.30, 0.20, 0.15, 0.10])]
    = demoRecomendaciones
      [("Escenario A (MUY SIMILAR)", [1, 2, 3, 4]),
       ("Escenario C (DIFERENTE)", [9, 9, 9, 9])] :=
  recomendacion_depends_only_on_names _ _ rfl
